import Mathlib

/-!
Verification of the `codex-account-manager` usage-checker core
(`usage_checker.py`) against its natural-language specification.

The Python module is shallowly embedded: JSON values produced by
`json.loads` are modelled by the inductive `Json` (Python `None` is
`Json.null`); a session file is its `glob` path together with the
outcome of `stat()` and of reading its lines, where each line is the
parse outcome of `json.loads` (`none` = `json.JSONDecodeError`).
Python exceptions are modelled with `Except Exc`; an `Except.error`
that a surrounding `try/except` does not catch propagates through the
monad, exactly as in the source.  The external `datetime` library is
abstracted to integer timestamps: `isoformat` / `fromisoformat` are
taken as an encode/parse pair (`iso`, `parse`) passed to the
definitions, with `isoDefault` / `parseDefault` as a concrete
instantiation satisfying the round-trip property the real library has.
-/

/-- Python exception classes relevant to the source's `except` clauses.
`json.JSONDecodeError`, `binascii.Error` and `UnicodeDecodeError` are
subclasses of `ValueError` and are represented by `Exc.valueErr`. -/
inductive Exc where
  | os
  | valueErr
  | typeErr
  | attr
  | keyErr
deriving DecidableEq, Repr

mutual

/-- A JSON value as returned by `json.loads`; `null` doubles as Python `None`. -/
inductive Json where
  | null
  | bool (b : Bool)
  | num (q : ℚ)
  | str (s : String)
  | arr (xs : JsonList)
  | obj (fields : JsonFields)
deriving DecidableEq, Repr

/-- A list of JSON values (elements of a JSON array). -/
inductive JsonList where
  | nil
  | cons (hd : Json) (tl : JsonList)
deriving DecidableEq, Repr

/-- The key/value members of a JSON object, in insertion order. -/
inductive JsonFields where
  | nil
  | cons (k : String) (v : Json) (tl : JsonFields)
deriving DecidableEq, Repr

end

/-- First value stored under key `k`, as Python `dict` lookup. -/
def JsonFields.lookup (k : String) : JsonFields → Option Json
  | .nil => none
  | .cons k' v tl => if k' = k then some v else tl.lookup k

/-- Whether the object has no members (`{}` is falsy in Python). -/
def JsonFields.isEmpty : JsonFields → Bool
  | .nil => true
  | .cons _ _ _ => false

/-- Whether the array has no elements. -/
def JsonList.isEmpty : JsonList → Bool
  | .nil => true
  | .cons _ _ => false

/-- `x.get(k, d)`: dictionary lookup with default; on a non-dict receiver
Python raises `AttributeError`. -/
def pyGetD : Json → String → Json → Except Exc Json
  | .obj fields, k, d => .ok ((fields.lookup k).getD d)
  | _, _, _ => .error .attr

/-- `x.get(k)`: dictionary lookup defaulting to `None`. -/
def pyGet (j : Json) (k : String) : Except Exc Json :=
  pyGetD j k .null

/-- Character-list substring test, used for Python's `in` on strings. -/
def charsHaveSub (needle : List Char) : List Char → Bool
  | [] => needle.isEmpty
  | c :: rest => (needle.isPrefixOf (c :: rest)) || charsHaveSub needle rest

/-- Python `k in x`: key membership on dicts, substring test on strings,
`TypeError` otherwise. -/
def pyContains : Json → String → Except Exc Bool
  | .obj fields, k => .ok (fields.lookup k).isSome
  | .str s, k => .ok (charsHaveSub k.data s.data)
  | _, _ => .error .typeErr

/-- Python truthiness of a JSON value. -/
def pyTruthy : Json → Bool
  | .null => false
  | .bool b => b
  | .num q => q != 0
  | .str s => s != ""
  | .arr xs => !xs.isEmpty
  | .obj fields => !fields.isEmpty

deriving instance DecidableEq for Except

/-- One candidate session file: its globbed path, the outcome of
`Path(p).stat().st_mtime` (which raises `OSError` if the file vanished
between enumeration and inspection), and the outcome of opening and
reading its lines (each line being the outcome of `json.loads`). -/
structure SessFile where
  path : String
  statMtime : Except Exc Int
  content : Except Exc (List (Option Json))
deriving DecidableEq, Repr

/-- The filesystem as seen by the scanner: whether the sessions root
exists and the files matching `rollout-*.jsonl`, in glob order. -/
structure FS where
  sessionsDirExists : Bool
  files : List SessFile
deriving DecidableEq, Repr

/-- Python `lines[-n:]`. -/
def lastN (n : Nat) (l : List α) : List α :=
  l.drop (l.length - n)

/-- Loop body of `_has_token_count_data` over already-reversed lines:
skip lines raising `json.JSONDecodeError`, return `True` on the first
line whose `payload.type` equals `"token_count"`.  A line holding
JSON that is not an object raises an uncaught `AttributeError`. -/
def hasTCLoop : List (Option Json) → Except Exc Bool
  | [] => .ok false
  | none :: rest => hasTCLoop rest
  | some data :: rest => do
    let payload ← pyGetD data "payload" (.obj .nil)
    let ty ← pyGet payload "type"
    if ty = .str "token_count" then .ok true else hasTCLoop rest

/-- `_has_token_count_data`: quick probe over the last 20 lines;
`OSError`/`IOError` while opening or reading yields `False`. -/
def hasTokenCountData (f : SessFile) : Except Exc Bool :=
  match f.content with
  | .error _ => .ok false
  | .ok lines => hasTCLoop (lastN 20 lines).reverse

/-- Loop body of `parse_session_file` over already-reversed lines:
skip malformed lines, return the parsed line object whose payload has
type `"token_count"` and a `rate_limits` key; `None` when exhausted. -/
def parseLoop : List (Option Json) → Except Exc Json
  | [] => .ok .null
  | none :: rest => parseLoop rest
  | some data :: rest => do
    let payload ← pyGetD data "payload" (.obj .nil)
    let ty ← pyGet payload "type"
    if ty = .str "token_count" then
      let b ← pyContains payload "rate_limits"
      if b then .ok data else parseLoop rest
    else parseLoop rest

/-- `parse_session_file`: reverse scan of the whole file;
`OSError`/`IOError` yields `None` (`Json.null`). -/
def parse_session_file (f : SessFile) : Except Exc Json :=
  match f.content with
  | .error _ => .ok .null
  | .ok lines => parseLoop lines.reverse

/-- `session_files.sort(key=lambda x: Path(x).stat().st_mtime, ...)`
computes the key of every candidate before sorting; any failing
`stat()` raises out of the sort. -/
def statAll : List SessFile → Except Exc (List (SessFile × Int))
  | [] => .ok []
  | f :: rest => do
    let m ← f.statMtime
    let r ← statAll rest
    .ok ((f, m) :: r)

/-- Order used for `sort(..., reverse=True)`: larger mtime first. -/
def mtGe (a b : SessFile × Int) : Prop := b.2 ≤ a.2

instance : DecidableRel mtGe := fun a b => inferInstanceAs (Decidable (b.2 ≤ a.2))

instance : IsTotal (SessFile × Int) mtGe :=
  ⟨fun a b => (le_total b.2 a.2 : b.2 ≤ a.2 ∨ a.2 ≤ b.2)⟩

instance : IsTrans (SessFile × Int) mtGe :=
  ⟨fun _ _ _ h1 h2 => le_trans h2 h1⟩

/-- The candidates sorted by modification time, most recent first
(a stable comparison sort, as Python's `list.sort`). -/
def sortDesc (keyed : List (SessFile × Int)) : List SessFile :=
  (keyed.insertionSort mtGe).map Prod.fst

/-- The probing loop of `find_latest_session_file`: return the first
candidate whose quick probe is positive, else the fallback. -/
def firstHit : List SessFile → Option SessFile → Except Exc (Option SessFile)
  | [], fb => .ok fb
  | f :: rest, fb => do
    let b ← hasTokenCountData f
    if b then .ok (some f) else firstHit rest fb

/-- `find_latest_session_file`: `None` if the root is missing or no file
matches; otherwise sort by mtime descending, probe the 10 most recent,
and fall back to the most recent candidate. -/
def find_latest_session_file (fs : FS) : Except Exc (Option SessFile) :=
  if fs.sessionsDirExists = false then .ok none
  else if fs.files.isEmpty then .ok none
  else do
    let keyed ← statAll fs.files
    let sorted := sortDesc keyed
    firstHit (sorted.take 10) sorted.head?

/-- Outcome of reading one cache file: missing, `OSError` on open/read,
content that `json.load` rejects, or a parsed JSON document. -/
inductive CacheRead where
  | absent
  | ioErr
  | badJson
  | doc (j : Json)
deriving DecidableEq, Repr

/-- The cache directory: filename/outcome pairs, later writes first. -/
abbrev CacheDir := List (String × CacheRead)

/-- What reading filename `n` in the cache directory yields. -/
def lookupCache (st : CacheDir) (n : String) : CacheRead :=
  (st.lookup n).getD .absent

/-- Overwrite (or create) the cache file named `n`. -/
def setEntry (st : CacheDir) (n : String) (v : CacheRead) : CacheDir :=
  (n, v) :: st

/-- Replace every non-overlapping occurrence of `pat`, left to right, as
Python `str.replace`; the fuel (instantiated with the input length) only
makes the recursion structural. -/
def replaceFuel (pat rep : List Char) : Nat → List Char → List Char
  | 0, l => l
  | _ + 1, [] => []
  | fuel + 1, c :: rest =>
    if pat.isPrefixOf (c :: rest) && !pat.isEmpty then
      rep ++ replaceFuel pat rep fuel (rest.drop (pat.length - 1))
    else c :: replaceFuel pat rep fuel rest

/-- Python `s.replace(pat, rep)` for a non-empty pattern. -/
def pyReplace (s pat rep : String) : String :=
  String.mk (replaceFuel pat.data rep.data s.data.length s.data)

/-- `email.replace('@','_at_').replace('.','_').replace('+','_plus_')`. -/
def sanitizeEmail (email : String) : String :=
  pyReplace (pyReplace (pyReplace email "@" "_at_") "." "_") "+" "_plus_"

/-- `f"{safe_email}_usage.json"`. -/
def cacheFileName (email : String) : String :=
  sanitizeEmail email ++ "_usage.json"

/-- The JSON document `save_usage_data` serializes:
`{"email": ..., "last_updated": now.isoformat(), "usage_data": ...}`. -/
def cacheDoc (iso : Int → String) (email : String) (t : Int) (usage : Json) : Json :=
  .obj (.cons "email" (.str email)
       (.cons "last_updated" (.str (iso t))
       (.cons "usage_data" usage .nil)))

/-- `save_usage_data`: `False` on empty email; on an `OSError` during the
write the exception is caught, `False` is returned and the target file is
left with whatever `residue` the interrupted write produced; otherwise the
serialized entry overwrites the file and `True` is returned. -/
def save_usage_data (iso : Int → String) (st : CacheDir) (t : Int) (ioOk : Bool)
    (residue : CacheRead) (email : String) (usage : Json) : Bool × CacheDir :=
  if email = "" then (false, st)
  else if ioOk then
    (true, setEntry st (cacheFileName email) (.doc (cacheDoc iso email t usage)))
  else (false, setEntry st (cacheFileName email) residue)

/-- `datetime.fromisoformat(x)`: `TypeError` on a non-string argument,
`ValueError` when the string does not parse. -/
def pyFromIso (parse : String → Option Int) : Json → Except Exc Int
  | .str s =>
    match parse s with
    | some u => .ok u
    | none => .error .valueErr
  | _ => .error .typeErr

/-- Body of the `try` block of `load_usage_data` (24 h = 86400 s). -/
def loadBody (parse : String → Option Int) (st : CacheDir) (t : Int)
    (email : String) : Except Exc Json := do
  match lookupCache st (cacheFileName email) with
  | .absent => .ok .null
  | .ioErr => .error .os
  | .badJson => .error .valueErr
  | .doc j => do
    let lu ← pyGetD j "last_updated" (.str "")
    let u ← pyFromIso parse lu
    if t - u > 86400 then .ok .null
    else pyGet j "usage_data"

/-- `load_usage_data`: `None` on empty email; the surrounding
`except (OSError, IOError, json.JSONDecodeError, ValueError)` turns those
errors into `None`, while any other exception propagates. -/
def load_usage_data (parse : String → Option Int) (st : CacheDir) (t : Int)
    (email : String) : Except Exc Json :=
  if email = "" then .ok .null
  else
    match loadBody parse st t email with
    | .error .os => .ok .null
    | .error .valueErr => .ok .null
    | .error e => .error e
    | .ok v => .ok v

/-- The summary dictionary built by `get_usage_summary` (fixed keys). -/
structure Summary where
  check_time : String
  status : String
  token_usage : Json
  rate_limits : Json
  errors : List String
deriving DecidableEq, Repr

/-- Stand-in for `datetime.now().strftime("%Y-%m-%d %H:%M:%S")` over the
integer-timestamp abstraction of `datetime`. -/
def strfFull (t : Int) : String := toString t

/-- Concrete instantiation of `datetime.isoformat`. -/
def isoDefault (t : Int) : String := toString t

/-- Digit-string value, `none` when empty or holding a non-digit. -/
def digitsVal : List Char → Option Nat
  | [] => none
  | ds =>
    ds.foldl (fun acc c =>
      acc.bind fun a => if c.isDigit then some (a * 10 + (c.toNat - 48)) else none)
      (some 0)

/-- Concrete instantiation of `datetime.fromisoformat`'s parse, the
inverse of `isoDefault`. -/
def parseDefault (s : String) : Option Int :=
  match s.data with
  | '-' :: ds => (digitsVal ds).map (fun n => -(n : Int))
  | ds => (digitsVal ds).map (fun n => (n : Int))

/-- `get_usage_summary`: scan, extract, assemble, then cache on success
when an email was supplied.  `ioOk`/`residue` describe the environment of
the potential cache write, exactly as in `save_usage_data`. -/
def get_usage_summary (iso : Int → String) (fs : FS) (st : CacheDir) (t : Int)
    (ioOk : Bool) (residue : CacheRead) (email : Option String) :
    Except Exc (Summary × CacheDir) := do
  let base : Summary :=
    ⟨strfFull t, "checking...", .obj .nil, .obj .nil, []⟩
  let sfOpt ← find_latest_session_file fs
  match sfOpt with
  | none =>
    .ok ({ base with
           status := "failed"
           errors := ["未找到 Codex CLI session 文件"] }, st)
  | some sf => do
    let token_data ← parse_session_file sf
    if pyTruthy token_data = false then
      .ok ({ base with
             status := "failed"
             errors := ["未找到有效的用量数据，请先在当前账号下使用 codex 发送消息"] }, st)
    else do
      let payload ← pyGetD token_data "payload" (.obj .nil)
      let info ← pyGet payload "info"
      let tu : Json :=
        match info with
        | .obj fields =>
          if pyTruthy (.obj fields) && (fields.lookup "total_token_usage").isSome then
            (fields.lookup "total_token_usage").getD .null
          else .obj .nil
        | _ => .obj .nil
      let hasRL ← pyContains payload "rate_limits"
      let rl : Json :=
        if hasRL then
          match payload with
          | .obj pf => (pf.lookup "rate_limits").getD (.obj .nil)
          | _ => .obj .nil
        else .obj .nil
      let s : Summary :=
        { check_time := strfFull t, status := "success",
          token_usage := tu, rate_limits := rl, errors := [] }
      match email with
      | some e =>
        if e = "" then .ok (s, st)
        else
          let usageDoc : Json :=
            .obj (.cons "check_time" (.str s.check_time)
                 (.cons "token_usage" tu
                 (.cons "rate_limits" rl .nil)))
          let step := save_usage_data iso st t ioOk residue e usageDoc
          .ok (s, step.2)
      | none => .ok (s, st)

/-- Insert a `,` after every third digit of a reversed digit list. -/
def groupRev : List Char → List Char
  | d1 :: d2 :: d3 :: d4 :: rest =>
    d1 :: d2 :: d3 :: ',' :: groupRev (d4 :: rest)
  | l => l

/-- Python `f"{n:,}"` for a natural number. -/
def commaNat (n : Nat) : String :=
  String.mk (groupRev (toString n).data.reverse).reverse

/-- Python `f"{i:,}"` for an integer. -/
def commaInt (i : Int) : String :=
  (if i < 0 then "-" else "") ++ commaNat i.natAbs

/-- Fuel-bounded decimal expansion of a rational in `[0, 1)`. -/
def fracDigits : Nat → ℚ → List Char
  | 0, _ => []
  | fuel + 1, q =>
    if q = 0 then []
    else
      let q10 := q * 10
      let d := (⌊q10⌋).toNat
      Char.ofNat (48 + d) :: fracDigits fuel (q10 - d)

/-- Python `f"{x:,}"`: digit grouping on numbers, `ValueError` on strings,
`TypeError` on other types (`bool` counts as the integers 0/1). -/
def pyFormatComma : Json → Except Exc String
  | .num q =>
    if q.den = 1 then .ok (commaInt q.num)
    else
      .ok ((if q < 0 then "-" else "") ++ commaNat (⌊|q|⌋).toNat ++ "." ++
        String.mk (fracDigits 32 (|q| - ⌊|q|⌋)))
  | .bool b => .ok (if b then "1" else "0")
  | .str _ => .error .valueErr
  | _ => .error .typeErr

/-- Python `f"{x:.1f}"` on a rational: one decimal digit, rounding to
nearest.  The tenths count `⌊q * 10 + 1/2⌋` is computed directly on the
numerator and denominator (`Int.ediv` is floor division here since the
denominator is positive). -/
def fixed1 (q : ℚ) : String :=
  let n : Int := Int.ediv (20 * q.num + (q.den : Int)) (2 * (q.den : Int))
  (if n < 0 then "-" else "") ++ toString (n.natAbs / 10) ++ "." ++
    toString (n.natAbs % 10)

/-- Python `f"{x:.1f}"`: numeric formatting, `ValueError` on strings,
`TypeError` on other types. -/
def pyFormat1f : Json → Except Exc String
  | .num q => .ok (fixed1 q)
  | .bool b => .ok (if b then "1.0" else "0.0")
  | .str _ => .error .valueErr
  | _ => .error .typeErr

/-- `timedelta(seconds=x)`: numbers (and bools) are accepted, anything
else raises `TypeError`. -/
def asSeconds : Json → Except Exc ℚ
  | .num q => .ok q
  | .bool b => .ok (if b then 1 else 0)
  | _ => .error .typeErr

/-- Python `x <= 330`: numeric comparison, `TypeError` on other types. -/
def pyLeNum : Json → ℚ → Except Exc Bool
  | .num q, c => .ok (decide (q ≤ c))
  | .bool b, c => .ok (decide ((if b then (1 : ℚ) else 0) ≤ c))
  | _, _ => .error .typeErr

/-- Two-digit zero-padded rendering. -/
def pad2 (n : Nat) : String :=
  if n < 10 then "0" ++ toString n else toString n

/-- `strftime('%H:%M:%S')` over the integer-timestamp abstraction:
time of day of the given second count. -/
def strfHMS (t : Int) : String :=
  let s := (t.emod 86400).toNat
  pad2 (s / 3600) ++ ":" ++ pad2 (s % 3600 / 60) ++ ":" ++ pad2 (s % 60)

/-- `(datetime.now() + timedelta(seconds=secs)).strftime('%H:%M:%S')`;
`%H:%M:%S` drops fractional seconds, so the whole second count is
`t + ⌊secs⌋`, with the floor computed on the numerator and denominator. -/
def resetTimeStr (t : Int) (secs : ℚ) : String :=
  strfHMS (t + Int.ediv secs.num (secs.den : Int))

/-- `"-" * 50`. -/
def dashes50 : String := String.mk (List.replicate 50 '-')

/-- The three lines the rate-limit loop appends for one window dict, in
source order: the reset time is computed first, then the window label
(`window_minutes <= 330`), then the percentage is formatted. -/
def limitBlock (t : Int) (fields : JsonFields) : Except Exc (List String) := do
  let up := (fields.lookup "used_percent").getD (.num 0)
  let rs := (fields.lookup "resets_in_seconds").getD (.num 0)
  let wm := (fields.lookup "window_minutes").getD (.num 0)
  let secs ← asSeconds rs
  let resetS := resetTimeStr t secs
  let le330 ← pyLeNum wm 330
  let wtype := if le330 then "5小时窗口" else "周限制"
  let upS ← pyFormat1f up
  .ok ["  🔄 " ++ wtype ++ ":",
       "    已使用: " ++ upS ++ "%",
       "    重置时间: " ++ resetS]

/-- The `for key, limit in limits.items()` loop: windows whose value is
not a dict are skipped. -/
def limitsLines (t : Int) : JsonFields → Except Exc (List String)
  | .nil => .ok []
  | .cons _ (.obj fields) tl => do
    let b ← limitBlock t fields
    let r ← limitsLines t tl
    .ok (b ++ r)
  | .cons _ _ tl => limitsLines t tl

/-- `format_usage_summary`: header, then on failure the error list plus
two static hints; otherwise the token block (when `token_usage` is
truthy) and one block per rate-limit window. -/
def format_usage_summary (t : Int) (summary : Summary) : Except Exc String := do
  let header := ["Codex CLI 用量查询",
                 "查询时间: " ++ summary.check_time,
                 "状态: " ++ summary.status,
                 dashes50]
  if summary.status = "failed" then
    .ok (String.intercalate "\n"
      (header ++ ["❌ 查询失败:"] ++ summary.errors.map (fun e => "  - " ++ e) ++
       ["\n💡 提示:",
        "  - 请确保已经使用过 Codex CLI",
        "  - 尝试运行 'codex' 命令并发送一条消息"]))
  else do
    let tokenLines ←
      if pyTruthy summary.token_usage then do
        let a ← pyGetD summary.token_usage "input_tokens" (.num 0)
        let aS ← pyFormatComma a
        let b ← pyGetD summary.token_usage "cached_input_tokens" (.num 0)
        let bS ← pyFormatComma b
        let c ← pyGetD summary.token_usage "output_tokens" (.num 0)
        let cS ← pyFormatComma c
        let d ← pyGetD summary.token_usage "total_tokens" (.num 0)
        let dS ← pyFormatComma d
        pure ["\n📊 Token 使用情况:",
              "  输入 tokens: " ++ aS,
              "  缓存 tokens: " ++ bS,
              "  输出 tokens: " ++ cS,
              "  总计 tokens: " ++ dS]
      else pure ([] : List String)
    let rlLines ←
      if pyTruthy summary.rate_limits then
        match summary.rate_limits with
        | .obj ws => do
          let ls ← limitsLines t ws
          pure ("\n⏰ 速率限制:" :: ls)
        | _ => Except.error .attr
      else pure ([] : List String)
    .ok (String.intercalate "\n" (header ++ tokenLines ++ rlLines))

/-- `payload += "=" * (4 - len(payload) % 4)`. -/
def padB64 (p : String) : String :=
  p ++ String.mk (List.replicate (4 - p.length % 4) '=')

/-- Split at every non-overlapping occurrence of `sep`, left to right,
keeping empty pieces, as Python `str.split` with a non-empty separator;
the fuel (instantiated with the input length) makes the recursion
structural. -/
def splitFuel (sep : List Char) (acc : List Char) :
    Nat → List Char → List (List Char)
  | 0, l => [acc.reverse ++ l]
  | _ + 1, [] => [acc.reverse]
  | fuel + 1, c :: rest =>
    if sep.isPrefixOf (c :: rest) && !sep.isEmpty then
      acc.reverse :: splitFuel sep [] fuel (rest.drop (sep.length - 1))
    else splitFuel sep (c :: acc) fuel rest

/-- Python `s.split(sep)` for a non-empty separator. -/
def pySplit (s sep : String) : List String :=
  (splitFuel sep.data [] s.data.length s.data).map String.mk

/-- `id_token.split(".")`: `AttributeError` on a non-string receiver. -/
def pySplitDots : Json → Except Exc (List String)
  | .str s => .ok (pySplit s ".")
  | _ => .error .attr

/-- Body of the outer `try` of `extract_email_from_auth`.  `dec` models
`json.loads(base64.b64decode(x))` on the padded middle segment: `none`
when that pipeline raises a `ValueError` (invalid base64, undecodable
bytes, or non-JSON payload), which the inner `except` turns into the
fall-through `return None`. -/
def extractEmailBody (dec : String → Option Json) (auth_data : Json) :
    Except Exc Json := do
  let tokens ← pyGetD auth_data "tokens" (.obj .nil)
  let id_token ← pyGetD tokens "id_token" (.str "")
  if pyTruthy id_token then do
    let parts ← pySplitDots id_token
    if parts.length ≥ 2 then
      let payload := (parts[1]?).getD ""
      match dec (padB64 payload) with
      | none => .ok .null
      | some token_data => pyGet token_data "email"
    else .ok .null
  else .ok .null

/-- `extract_email_from_auth`: the outer
`except (KeyError, TypeError, AttributeError)` turns those errors into
`None`; everything else would propagate. -/
def extract_email_from_auth (dec : String → Option Json) (auth_data : Json) :
    Except Exc Json :=
  match extractEmailBody dec auth_data with
  | .error .keyErr => .ok .null
  | .error .typeErr => .ok .null
  | .error .attr => .ok .null
  | .error e => .error e
  | .ok v => .ok v

/-! ## Specification-side predicates for the extractor and scanner -/

/-- Monad-law helper for the `Except` embedding. -/
theorem bindOk (a : α) (f : α → Except Exc β) : (Except.ok a >>= f) = f a := rfl

/-- Schema well-formedness of one scanned line (the documented log-line
shape): a malformed line, or a JSON object whose `payload` member, when
present, is itself an object. -/
def wfLine : Option Json → Bool
  | none => true
  | some (.obj fields) =>
    match fields.lookup "payload" with
    | none => true
    | some (.obj _) => true
    | some _ => false
  | some _ => false

/-- Schema well-formedness of a whole session file (trivial when the
file cannot be read). -/
def wfSess (f : SessFile) : Bool :=
  match f.content with
  | .error _ => true
  | .ok lines => lines.all wfLine

/-- A qualifying usage-snapshot line: a JSON object whose payload carries
the `token_count` type tag and a `rate_limits` member. -/
def isSnapshotLine : Option Json → Bool
  | some (.obj fields) =>
    match (fields.lookup "payload").getD (.obj .nil) with
    | .obj pf =>
      ((pf.lookup "type").getD .null == .str "token_count") &&
        (pf.lookup "rate_limits").isSome
    | _ => false
  | _ => false

/-- The parsed object of the first qualifying line of a list (`null`
when there is none). -/
def firstSnapVal (rl : List (Option Json)) : Json :=
  match rl.find? isSnapshotLine with
  | some (some d) => d
  | _ => .null

/-- The parsed object of the last (by file position) qualifying line. -/
def lastSnapVal (lines : List (Option Json)) : Json :=
  firstSnapVal lines.reverse


/-- `find?` keeps the head when the predicate holds there. -/
theorem findConsTrue {p : α → Bool} {a : α} (l : List α) (h : p a = true) :
    (a :: l).find? p = some a := by
  simp [List.find?, h]

/-- `find?` skips a head where the predicate fails. -/
theorem findConsFalse {p : α → Bool} {a : α} (l : List α) (h : p a = false) :
    (a :: l).find? p = l.find? p := by
  simp [List.find?, h]

/-- On schema-conforming input the payload extracted with the `{}`
default is an object. -/
theorem wfLine_payload_obj (fields : JsonFields)
    (h : wfLine (some (.obj fields)) = true) :
    ∃ pf, (fields.lookup "payload").getD (.obj .nil) = .obj pf := by
  rcases hpl : fields.lookup "payload" with _ | pl
  · exact ⟨.nil, rfl⟩
  · cases pl with
    | obj pf => exact ⟨pf, rfl⟩
    | null => simp [wfLine, hpl] at h
    | bool b => simp [wfLine, hpl] at h
    | num q => simp [wfLine, hpl] at h
    | str s => simp [wfLine, hpl] at h
    | arr xs => simp [wfLine, hpl] at h

/-- The reverse-scan loop of `parse_session_file` returns the first
qualifying line of its input when every line is schema-conforming. -/
theorem parseLoop_eq_firstSnap :
    ∀ rl : List (Option Json), (∀ l ∈ rl, wfLine l = true) →
      parseLoop rl = .ok (firstSnapVal rl) := by
  intro rl
  induction rl with
  | nil => intro _; simp [parseLoop, firstSnapVal]
  | cons hd tl ih =>
    intro h
    have hhd := h hd (List.mem_cons_self hd tl)
    have htl : ∀ l ∈ tl, wfLine l = true :=
      fun l hl => h l (List.mem_cons_of_mem hd hl)
    cases hd with
    | none =>
      have hns : isSnapshotLine none = false := rfl
      have h1 : parseLoop (none :: tl) = parseLoop tl := rfl
      have h2 : firstSnapVal (none :: tl) = firstSnapVal tl := by
        unfold firstSnapVal
        rw [findConsFalse tl hns]
      rw [h1, h2, ih htl]
    | some d =>
      cases d with
      | null => simp [wfLine] at hhd
      | bool b => simp [wfLine] at hhd
      | num q => simp [wfLine] at hhd
      | str s => simp [wfLine] at hhd
      | arr xs => simp [wfLine] at hhd
      | obj fields =>
        obtain ⟨pf, hpf⟩ := wfLine_payload_obj fields hhd
        by_cases hty : (pf.lookup "type").getD .null = .str "token_count"
        · by_cases hrl : (pf.lookup "rate_limits").isSome = true
          · have hbeq : ((pf.lookup "type").getD .null == Json.str "token_count") = true :=
              beq_iff_eq.mpr hty
            have hsnap : isSnapshotLine (some (.obj fields)) = true := by
              simp [isSnapshotLine, hpf, hbeq, hrl]
            have h2 : firstSnapVal (some (.obj fields) :: tl) = .obj fields := by
              unfold firstSnapVal
              rw [findConsTrue tl hsnap]
            rw [h2]
            simp [parseLoop, pyGetD, pyGet, pyContains, hpf, hty, hrl, bindOk]
          · have hrl' : (pf.lookup "rate_limits").isSome = false := by
              simpa using hrl
            have hsnap : isSnapshotLine (some (.obj fields)) = false := by
              simp [isSnapshotLine, hpf, hrl']
            have h2 : firstSnapVal (some (.obj fields) :: tl) = firstSnapVal tl := by
              unfold firstSnapVal
              rw [findConsFalse tl hsnap]
            rw [h2, ← ih htl]
            simp [parseLoop, pyGetD, pyGet, pyContains, hpf, hty, hrl', bindOk]
        · have hbeq : ((pf.lookup "type").getD .null == Json.str "token_count") = false :=
            beq_eq_false_iff_ne.mpr hty
          have hsnap : isSnapshotLine (some (.obj fields)) = false := by
            simp [isSnapshotLine, hpf, hbeq]
          have h2 : firstSnapVal (some (.obj fields) :: tl) = firstSnapVal tl := by
            unfold firstSnapVal
            rw [findConsFalse tl hsnap]
          rw [h2, ← ih htl]
          simp [parseLoop, pyGetD, pyGet, pyContains, hpf, hty, bindOk]

/-! ## C1: the extractor returns the latest usage-snapshot line -/

/-- C1: for every session file conforming to the documented log-line
schema (each JSON-parsable line is one JSON object whose `payload`
member, when present, is an object), `parse_session_file` returns the
parsed object of the last line — by file position — that parses as
JSON, carries the `token_count` type tag and contains a `rate_limits`
field (malformed lines are skipped), and returns `None` when no line
qualifies or when the file cannot be read.  In particular, with two
qualifying lines it returns the later one (`lastSnapVal` picks the first
qualifying line of the reversed file). -/
theorem parse_session_file_spec :
    (∀ (f : SessFile) (e : Exc), f.content = .error e →
      parse_session_file f = .ok .null) ∧
    (∀ (f : SessFile) (lines : List (Option Json)), f.content = .ok lines →
      (∀ l ∈ lines, wfLine l = true) →
      parse_session_file f = .ok (lastSnapVal lines)) := by
  constructor
  · intro f e he
    unfold parse_session_file
    rw [he]
  · intro f lines hc hwf
    unfold parse_session_file
    rw [hc]
    exact parseLoop_eq_firstSnap lines.reverse
      (fun l hl => hwf l (List.mem_reverse.mp hl))

/-- First qualifying snapshot line of the two-snapshot witness file. -/
def c1snapA : Json :=
  .obj (.cons "payload" (.obj (.cons "type" (.str "token_count")
       (.cons "rate_limits" (.obj (.cons "primary" (.num 1) .nil)) .nil)))
       (.cons "idx" (.num 1) .nil))

/-- Second (later) qualifying snapshot line of the witness file. -/
def c1snapB : Json :=
  .obj (.cons "payload" (.obj (.cons "type" (.str "token_count")
       (.cons "rate_limits" (.obj (.cons "primary" (.num 2) .nil)) .nil)))
       (.cons "idx" (.num 2) .nil))

/-- Witness file: garbage line, first snapshot, malformed line, second
snapshot, then a non-snapshot event. -/
def c1file : SessFile :=
  ⟨"rollout-2025-c1.jsonl", .ok 10,
   .ok [some (.obj (.cons "payload" (.obj (.cons "type" (.str "message") .nil)) .nil)),
        some c1snapA,
        none,
        some c1snapB,
        some (.obj (.cons "other" (.num 3) .nil))]⟩

/-- Witness for C1: on the concrete five-line file the extractor returns
the second snapshot line, the later one by file position. -/
theorem parse_session_file_spec_witness :
    parse_session_file c1file = .ok c1snapB := by
  have h := parse_session_file_spec.2 c1file
    [some (.obj (.cons "payload" (.obj (.cons "type" (.str "message") .nil)) .nil)),
     some c1snapA,
     none,
     some c1snapB,
     some (.obj (.cons "other" (.num 3) .nil))] rfl (by decide)
  exact h.trans (by decide)

/-! ## C10: the quick probe accepts files the extractor rejects -/

/-- A file whose single line carries the `token_count` tag but no
`rate_limits` member. -/
def c10file : SessFile :=
  ⟨"rollout-2025-c10.jsonl", .ok 100,
   .ok [some (.obj (.cons "payload"
        (.obj (.cons "type" (.str "token_count") .nil)) .nil))]⟩

/-- The singleton filesystem exposing only `c10file`. -/
def c10fs : FS := ⟨true, [c10file]⟩

/-- C10: the quick-check `_has_token_count_data` accepts a file whose
tail has the `token_count` tag but no `rate_limits` member, while
`parse_session_file` extracts nothing from it — and the scanner
therefore selects that file even though no snapshot is extractable. -/
theorem quick_probe_weaker_than_extract :
    hasTokenCountData c10file = .ok true ∧
    parse_session_file c10file = .ok .null ∧
    find_latest_session_file c10fs = .ok (some c10file) := by
  decide

/-! ## C2: the scanner probes in strictly descending mtime order -/

/-- Monad-law helper: a raising step aborts the `Except` computation. -/
theorem bindErr (e : Exc) (f : α → Except Exc β) :
    (Except.error e >>= f) = .error e := rfl

/-- Decidable version of "the quick probe returns `True`". -/
def probePositive (f : SessFile) : Bool :=
  hasTokenCountData f == .ok true

/-- The probe loop of `_has_token_count_data` completes on
schema-conforming lines. -/
theorem hasTCLoop_ok :
    ∀ rl : List (Option Json), (∀ l ∈ rl, wfLine l = true) →
      ∃ b, hasTCLoop rl = .ok b := by
  intro rl
  induction rl with
  | nil => intro _; exact ⟨false, rfl⟩
  | cons hd tl ih =>
    intro h
    have hhd := h hd (List.mem_cons_self hd tl)
    have htl : ∀ l ∈ tl, wfLine l = true :=
      fun l hl => h l (List.mem_cons_of_mem hd hl)
    cases hd with
    | none => exact ih htl
    | some d =>
      cases d with
      | null => simp [wfLine] at hhd
      | bool b => simp [wfLine] at hhd
      | num q => simp [wfLine] at hhd
      | str s => simp [wfLine] at hhd
      | arr xs => simp [wfLine] at hhd
      | obj fields =>
        obtain ⟨pf, hpf⟩ := wfLine_payload_obj fields hhd
        by_cases hty : (pf.lookup "type").getD .null = .str "token_count"
        · exact ⟨true, by simp [hasTCLoop, pyGetD, pyGet, hpf, hty, bindOk]⟩
        · obtain ⟨b, hb⟩ := ih htl
          exact ⟨b, by simp [hasTCLoop, pyGetD, pyGet, hpf, hty, bindOk, hb]⟩

/-- The quick probe completes on every schema-conforming file. -/
theorem hasTokenCountData_ok (f : SessFile) (h : wfSess f = true) :
    ∃ b, hasTokenCountData f = .ok b := by
  unfold hasTokenCountData
  rcases hc : f.content with e | lines
  · exact ⟨false, rfl⟩
  · apply hasTCLoop_ok
    intro l hl
    have hl' : l ∈ lines :=
      List.drop_subset _ _ (List.mem_reverse.mp hl)
    unfold wfSess at h
    rw [hc] at h
    exact List.all_eq_true.mp h l hl'

/-- The probe loop returns the first positively-probing candidate, or
the fallback, whenever every probe in the list completes. -/
theorem firstHit_eq_find :
    ∀ (ps : List SessFile) (fb : Option SessFile),
      (∀ f ∈ ps, ∃ b, hasTokenCountData f = .ok b) →
      firstHit ps fb = .ok ((ps.find? probePositive).orElse (fun _ => fb)) := by
  intro ps
  induction ps with
  | nil => intro fb _; simp [firstHit]
  | cons f rest ih =>
    intro fb h
    obtain ⟨b, hb⟩ := h f (List.mem_cons_self f rest)
    have hrest : ∀ g ∈ rest, ∃ b, hasTokenCountData g = .ok b :=
      fun g hg => h g (List.mem_cons_of_mem f hg)
    cases b with
    | true =>
      have hp : probePositive f = true := by simp [probePositive, hb]
      rw [findConsTrue rest hp]
      simp [firstHit, hb, bindOk]
    | false =>
      have hp : probePositive f = false := by simp [probePositive, hb]
      rw [findConsFalse rest hp]
      rw [← ih fb hrest]
      simp [firstHit, hb, bindOk]

/-- A successful `statAll` pairs each candidate with its mtime, in glob
order. -/
theorem statAll_map_fst :
    ∀ (l : List SessFile) (keyed : List (SessFile × Int)),
      statAll l = .ok keyed → keyed.map Prod.fst = l := by
  intro l
  induction l with
  | nil =>
    intro keyed h
    cases h
    rfl
  | cons f rest ih =>
    intro keyed h
    rcases hm : f.statMtime with e | m
    · rw [statAll, hm, bindErr] at h
      cases h
    · rcases hs : statAll rest with e | r
      · rw [statAll, hm, bindOk, hs, bindErr] at h
        cases h
      · rw [statAll, hm, bindOk, hs, bindOk] at h
        cases h
        simp [ih r hs]

/-- Sorting with pairwise-distinct mtimes yields a strictly descending
mtime sequence. -/
theorem sortDesc_strict (keyed : List (SessFile × Int))
    (hd : (keyed.map Prod.snd).Pairwise (· ≠ ·)) :
    ((keyed.insertionSort mtGe).map Prod.snd).Pairwise (· > ·) := by
  have hs : List.Sorted mtGe (keyed.insertionSort mtGe) :=
    List.sorted_insertionSort mtGe keyed
  have hperm : (keyed.insertionSort mtGe).Perm keyed :=
    List.perm_insertionSort mtGe keyed
  have hd' : ((keyed.insertionSort mtGe).map Prod.snd).Pairwise (· ≠ ·) := by
    refine ((hperm.map Prod.snd).pairwise_iff ?_).mpr hd
    intro a b hab
    exact hab.symm
  have hs' : ((keyed.insertionSort mtGe).map Prod.snd).Pairwise (· ≥ ·) := by
    rw [List.pairwise_map]
    exact hs.imp (fun h => h)
  have := hs'.and hd'
  exact this.imp (fun hab => lt_of_le_of_ne hab.1 (Ne.symm hab.2))

/-- C2: `find_latest_session_file` returns `None` when the sessions root
is missing or no file matches; otherwise, for schema-conforming
candidates with pairwise-distinct modification times, the candidate
order it works through is a permutation of the glob result arranged in
strictly descending mtime order, and the result is the first of the 10
most-recent candidates whose quick probe is positive — falling back to
the single most-recent candidate when none of those 10 probe
positive. -/
theorem find_latest_session_file_spec :
    (∀ fs : FS, fs.sessionsDirExists = false →
      find_latest_session_file fs = .ok none) ∧
    (∀ fs : FS, fs.files = [] → find_latest_session_file fs = .ok none) ∧
    (∀ (fs : FS) (keyed : List (SessFile × Int)),
      fs.sessionsDirExists = true →
      fs.files ≠ [] →
      statAll fs.files = .ok keyed →
      (keyed.map Prod.snd).Pairwise (· ≠ ·) →
      (∀ f ∈ fs.files, wfSess f = true) →
      (sortDesc keyed).Perm fs.files ∧
      ((keyed.insertionSort mtGe).map Prod.snd).Pairwise (· > ·) ∧
      find_latest_session_file fs =
        .ok ((((sortDesc keyed).take 10).find? probePositive).orElse
          (fun _ => (sortDesc keyed).head?))) := by
  refine ⟨?_, ?_, ?_⟩
  · intro fs h
    unfold find_latest_session_file
    rw [h]
    rfl
  · intro fs h
    unfold find_latest_session_file
    rw [h]
    cases hfs : fs.sessionsDirExists <;> rfl
  · intro fs keyed hdir hne hstat hdist hwf
    have hmap : keyed.map Prod.fst = fs.files := statAll_map_fst fs.files keyed hstat
    have hperm : (sortDesc keyed).Perm fs.files := by
      unfold sortDesc
      rw [← hmap]
      exact (List.perm_insertionSort mtGe keyed).map Prod.fst
    refine ⟨hperm, sortDesc_strict keyed hdist, ?_⟩
    have hemp : fs.files.isEmpty = false := by
      rcases hf : fs.files with _ | ⟨a, l⟩
      · exact absurd hf hne
      · rfl
    unfold find_latest_session_file
    rw [hdir, hemp, hstat]
    have hprobe : ∀ f ∈ (sortDesc keyed).take 10, ∃ b, hasTokenCountData f = .ok b := by
      intro f hf
      have hf1 : f ∈ sortDesc keyed := List.take_subset 10 _ hf
      have hf2 : f ∈ fs.files := hperm.mem_iff.mp hf1
      exact hasTokenCountData_ok f (hwf f hf2)
    exact firstHit_eq_find _ _ hprobe

/-- Oldest candidate (mtime 10), the only one whose probe is positive. -/
def c2f1 : SessFile :=
  ⟨"rollout-2025-c2a.jsonl", .ok 10,
   .ok [some (.obj (.cons "payload" (.obj (.cons "type" (.str "token_count")
        (.cons "rate_limits" (.obj .nil) .nil))) .nil))]⟩

/-- Newest candidate (mtime 30), probing negative. -/
def c2f2 : SessFile :=
  ⟨"rollout-2025-c2b.jsonl", .ok 30,
   .ok [some (.obj (.cons "payload" (.obj (.cons "type" (.str "message") .nil)) .nil))]⟩

/-- Middle candidate (mtime 20), empty, probing negative. -/
def c2f3 : SessFile :=
  ⟨"rollout-2025-c2c.jsonl", .ok 20, .ok []⟩

/-- Scanner witness filesystem, glob order deliberately unsorted. -/
def c2fs : FS := ⟨true, [c2f1, c2f2, c2f3]⟩

/-- Witness for C2: the two most recent candidates probe negative, so
the scanner, probing in descending mtime order, returns the third
(oldest) candidate — the first positive probe. -/
theorem find_latest_session_file_spec_witness :
    find_latest_session_file c2fs = .ok (some c2f1) := by
  have h := (find_latest_session_file_spec.2.2 c2fs
    [(c2f1, 10), (c2f2, 30), (c2f3, 20)]
    rfl (by decide) (by decide) (by decide) (by decide)).2.2
  exact h.trans (by decide)

/-! ## C3: which I/O errors are actually swallowed -/

/-- A healthy candidate, present throughout the scan. -/
def c3good : SessFile := ⟨"rollout-2025-c3a.jsonl", .ok 50, .ok []⟩

/-- A candidate removed between `glob` enumeration and the `stat()`
call of the sort key, so `stat()` raises `OSError`. -/
def c3gone : SessFile := ⟨"rollout-2025-c3b.jsonl", .error .os, .ok []⟩

/-- Filesystem state exhibiting the enumeration/inspection race. -/
def c3fs : FS := ⟨true, [c3good, c3gone]⟩

/-- Counterexample to C3: when a file vanishes between enumeration and
inspection, the `OSError` raised by `stat()` inside the sort key of
`find_latest_session_file` is caught nowhere and propagates out of both
`find_latest_session_file` and `get_usage_summary` — there is no
`SummaryResult` at all, failed or otherwise. -/
theorem io_error_propagates_cex :
    find_latest_session_file c3fs = .error .os ∧
    get_usage_summary isoDefault c3fs [] 1000 true .absent none = .error .os := by
  decide

/-- C3 (amended): I/O errors raised while opening or reading a session
file are caught inside the quick probe and the extractor and treated as
"no data", and cache-file I/O errors are caught inside
`load_usage_data` / `save_usage_data`; but an I/O error raised by
`stat()` during candidate sorting is not handled (see the
counterexample). -/
theorem io_soft_fail_spec :
    (∀ (f : SessFile) (e : Exc), f.content = .error e →
      hasTokenCountData f = .ok false ∧ parse_session_file f = .ok .null) ∧
    (∀ (parse : String → Option Int) (st : CacheDir) (t : Int) (email : String),
      email ≠ "" → lookupCache st (cacheFileName email) = .ioErr →
      load_usage_data parse st t email = .ok .null) ∧
    (∀ (iso : Int → String) (st : CacheDir) (t : Int) (residue : CacheRead)
        (email : String) (usage : Json), email ≠ "" →
      (save_usage_data iso st t false residue email usage).1 = false) := by
  refine ⟨?_, ?_, ?_⟩
  · intro f e he
    constructor
    · unfold hasTokenCountData
      rw [he]
    · unfold parse_session_file
      rw [he]
  · intro parse st t email hne hio
    unfold load_usage_data
    rw [if_neg hne]
    unfold loadBody
    rw [hio]
  · intro iso st t residue email usage hne
    simp [save_usage_data, hne]

/-- Witness for the amended C3: concrete unreadable session file and a
cache file hit by an I/O error, both degrading softly. -/
theorem io_soft_fail_spec_witness :
    hasTokenCountData ⟨"rollout-2025-c3w.jsonl", .ok 7, .error .os⟩ = .ok false ∧
    load_usage_data parseDefault [("u_at_x_usage.json", .ioErr)] 0 "u@x" = .ok .null ∧
    (save_usage_data isoDefault [] 0 false .badJson "u@x" .null).1 = false := by
  refine ⟨?_, ?_, ?_⟩
  · exact (io_soft_fail_spec.1 ⟨"rollout-2025-c3w.jsonl", .ok 7, .error .os⟩ .os rfl).1
  · exact io_soft_fail_spec.2.1 parseDefault [("u_at_x_usage.json", .ioErr)] 0 "u@x"
      (by decide) (by decide)
  · exact io_soft_fail_spec.2.2 isoDefault [] 0 .badJson "u@x" .null (by decide)

/-! ## C4/C5/C6: the freshness cache -/

/-- Reading a well-formed cache document whose `last_updated` entry is
the string `s` (or is absent, in which case `s = ""`): unparsable
timestamps raise `ValueError`, entries older than 24 h read as `None`,
fresh entries return the stored `usage_data`. -/
theorem loadBody_doc (parse : String → Option Int) (st : CacheDir) (t : Int)
    (email : String) (fields : JsonFields) (s : String)
    (hlook : lookupCache st (cacheFileName email) = .doc (.obj fields))
    (hlu : (fields.lookup "last_updated").getD (.str "") = .str s) :
    loadBody parse st t email =
      (match parse s with
       | none => .error .valueErr
       | some u =>
         if t - u > 86400 then .ok .null
         else .ok ((fields.lookup "usage_data").getD .null)) := by
  unfold loadBody
  rw [hlook]
  show (do
    let lu ← pyGetD (.obj fields) "last_updated" (.str "")
    let u ← pyFromIso parse lu
    if t - u > 86400 then (.ok .null : Except Exc Json)
    else pyGet (.obj fields) "usage_data") = _
  rw [show pyGetD (.obj fields) "last_updated" (.str "")
      = .ok ((fields.lookup "last_updated").getD (.str "")) from rfl, hlu, bindOk]
  rcases hp : parse s with _ | u
  · rw [show pyFromIso parse (.str s) = .error .valueErr from by
      simp [pyFromIso, hp], bindErr]
  · rw [show pyFromIso parse (.str s) = .ok u from by
      simp [pyFromIso, hp], bindOk]
    rfl

/-- C5: `load_usage_data` returns `None` exactly in the soft-failure
cases — empty identity, missing cache file, content `json.load` cannot
parse, a `last_updated` string the timestamp parser rejects, and an
entry older than 24 hours — and otherwise returns the stored
`usage_data`; the cache state is never modified (the embedding of
`load_usage_data` has no state output at all, matching the source,
which never deletes the expired file). -/
theorem load_usage_data_spec :
    (∀ parse st t, load_usage_data parse st t "" = .ok .null) ∧
    (∀ parse st t email, email ≠ "" →
      lookupCache st (cacheFileName email) = .absent →
      load_usage_data parse st t email = .ok .null) ∧
    (∀ parse st t email, email ≠ "" →
      lookupCache st (cacheFileName email) = .badJson →
      load_usage_data parse st t email = .ok .null) ∧
    (∀ parse st t email fields s, email ≠ "" →
      lookupCache st (cacheFileName email) = .doc (.obj fields) →
      (fields.lookup "last_updated").getD (.str "") = .str s →
      (parse s = none → load_usage_data parse st t email = .ok .null) ∧
      (∀ u : Int, parse s = some u → t - u > 86400 →
        load_usage_data parse st t email = .ok .null) ∧
      (∀ u : Int, parse s = some u → t - u ≤ 86400 →
        load_usage_data parse st t email =
          .ok ((fields.lookup "usage_data").getD .null))) := by
  refine ⟨?_, ?_, ?_, ?_⟩
  · intro parse st t
    rfl
  · intro parse st t email hne hlook
    unfold load_usage_data
    rw [if_neg hne]
    unfold loadBody
    rw [hlook]
  · intro parse st t email hne hlook
    unfold load_usage_data
    rw [if_neg hne]
    unfold loadBody
    rw [hlook]
  · intro parse st t email fields s hne hlook hlu
    have hbody := loadBody_doc parse st t email fields s hlook hlu
    refine ⟨?_, ?_, ?_⟩
    · intro hp
      unfold load_usage_data
      rw [if_neg hne, hbody, hp]
    · intro u hp hold
      unfold load_usage_data
      rw [if_neg hne, hbody, hp]
      simp [hold]
    · intro u hp hfresh
      unfold load_usage_data
      rw [if_neg hne, hbody, hp]
      have hn : ¬ (t - u > 86400) := by omega
      simp [hn]

/-- The cache entry written at time 0 for the C5 witness. -/
def c5doc : Json := cacheDoc isoDefault "user@x.com" 0 (.str "snapshot")

/-- Witness for C5: an entry written 25 hours ago (90000 s > 86400 s)
reads as `None` even though the file exists and is well-formed. -/
theorem load_usage_data_spec_witness :
    load_usage_data parseDefault [(cacheFileName "user@x.com", .doc c5doc)]
      90000 "user@x.com" = .ok .null := by
  have h := (load_usage_data_spec.2.2.2 parseDefault
    [(cacheFileName "user@x.com", .doc c5doc)] 90000 "user@x.com"
    (.cons "email" (.str "user@x.com")
      (.cons "last_updated" (.str (isoDefault 0))
      (.cons "usage_data" (.str "snapshot") .nil)))
    (isoDefault 0) (by decide) (by decide) (by decide)).2.1
  exact h 0 (by decide) (by decide)

/-- C4: a successful `save_usage_data` followed by `load_usage_data`
under the same non-empty identity, with the timestamp codec round-trip
and less than 24 hours elapsed, returns exactly the stored snapshot. -/
theorem cache_round_trip :
    ∀ (iso : Int → String) (parse : String → Option Int) (st : CacheDir)
      (t t' : Int) (email : String) (S : Json),
      email ≠ "" → parse (iso t) = some t → t' - t ≤ 86400 →
      (save_usage_data iso st t true .absent email S).1 = true ∧
      load_usage_data parse (save_usage_data iso st t true .absent email S).2
        t' email = .ok S := by
  intro iso parse st t t' email S hne hrt hfresh
  have hsave : save_usage_data iso st t true .absent email S =
      (true, setEntry st (cacheFileName email) (.doc (cacheDoc iso email t S))) := by
    simp [save_usage_data, hne]
  refine ⟨by rw [hsave], ?_⟩
  rw [hsave]
  have hlook : lookupCache
      (setEntry st (cacheFileName email) (.doc (cacheDoc iso email t S)))
      (cacheFileName email) = .doc (cacheDoc iso email t S) := by
    simp [lookupCache, setEntry, List.lookup]
  have hlu : ((JsonFields.cons "email" (.str email)
      (.cons "last_updated" (.str (iso t))
      (.cons "usage_data" S .nil))).lookup "last_updated").getD (.str "")
      = .str (iso t) := by
    simp [JsonFields.lookup]
  have hbody := loadBody_doc parse _ t' email _ (iso t) hlook hlu
  have hbody2 : loadBody parse
      (setEntry st (cacheFileName email) (.doc (cacheDoc iso email t S)))
      t' email = .ok S := by
    rw [hbody, hrt]
    have hn : ¬ (t' - t > 86400) := by omega
    simp [hn, JsonFields.lookup]
  unfold load_usage_data
  rw [if_neg hne, hbody2]

/-- Witness for C4: a concrete snapshot saved at time 100 and read back
at time 200 under `user@x.com` comes back unchanged. -/
theorem cache_round_trip_witness :
    (save_usage_data isoDefault [] 100 true .absent "user@x.com"
      (.obj (.cons "token_usage" (.num 7) .nil))).1 = true ∧
    load_usage_data parseDefault
      (save_usage_data isoDefault [] 100 true .absent "user@x.com"
        (.obj (.cons "token_usage" (.num 7) .nil))).2 200 "user@x.com" =
      .ok (.obj (.cons "token_usage" (.num 7) .nil)) :=
  cache_round_trip isoDefault parseDefault [] 100 200 "user@x.com"
    (.obj (.cons "token_usage" (.num 7) .nil))
    (by decide) (by decide) (by decide)

/-- C6: `save_usage_data` returns `False` without raising on an empty
identity (leaving the cache untouched) or on a write I/O error, and
otherwise returns `True` after writing a cache entry whose
`last_updated` field holds the current time, overwriting any prior
entry stored under the same identity. -/
theorem save_usage_data_spec :
    (∀ iso st t ioOk residue usage,
      save_usage_data iso st t ioOk residue "" usage = (false, st)) ∧
    (∀ iso st t residue email usage, email ≠ "" →
      (save_usage_data iso st t false residue email usage).1 = false) ∧
    (∀ iso st t residue email usage, email ≠ "" →
      save_usage_data iso st t true residue email usage =
        (true, setEntry st (cacheFileName email)
          (.doc (cacheDoc iso email t usage))) ∧
      lookupCache (save_usage_data iso st t true residue email usage).2
        (cacheFileName email) = .doc (cacheDoc iso email t usage)) := by
  refine ⟨?_, ?_, ?_⟩
  · intro iso st t ioOk residue usage
    rfl
  · intro iso st t residue email usage hne
    simp [save_usage_data, hne]
  · intro iso st t residue email usage hne
    constructor
    · simp [save_usage_data, hne]
    · simp [save_usage_data, hne, lookupCache, setEntry, List.lookup]

/-- Witness for C6: overwriting a stale entry for `u@x` — the write
reports `True` and the file now holds the freshly-stamped document. -/
theorem save_usage_data_spec_witness :
    (save_usage_data isoDefault [(cacheFileName "u@x", .doc (.num 1))] 5 true
      .absent "u@x" (.str "new")).1 = true ∧
    lookupCache (save_usage_data isoDefault
      [(cacheFileName "u@x", .doc (.num 1))] 5 true .absent "u@x" (.str "new")).2
      (cacheFileName "u@x") = .doc (cacheDoc isoDefault "u@x" 5 (.str "new")) := by
  have h := save_usage_data_spec.2.2 isoDefault
    [(cacheFileName "u@x", .doc (.num 1))] 5 .absent "u@x" (.str "new") (by decide)
  exact ⟨by rw [h.1], h.2⟩

/-! ## C7: summary when the log root is absent -/

/-- C7: with the sessions root absent, `get_usage_summary` returns a
summary with status `failed`, exactly one "no session file" error,
empty token-usage and rate-limit mappings — and the cache directory is
returned unchanged: no cache write happens on this path. -/
theorem get_usage_summary_no_log :
    ∀ (iso : Int → String) (fs : FS) (st : CacheDir) (t : Int) (ioOk : Bool)
      (residue : CacheRead) (email : Option String),
      fs.sessionsDirExists = false →
      get_usage_summary iso fs st t ioOk residue email =
        .ok ({ check_time := strfFull t, status := "failed",
               token_usage := .obj .nil, rate_limits := .obj .nil,
               errors := ["未找到 Codex CLI session 文件"] }, st) := by
  intro iso fs st t ioOk residue email hdir
  have h1 : find_latest_session_file fs = .ok none := by
    unfold find_latest_session_file
    rw [hdir]
    rfl
  unfold get_usage_summary
  rw [h1, bindOk]

/-- Witness for C7 at a concrete filesystem, cache and clock. -/
theorem get_usage_summary_no_log_witness :
    get_usage_summary isoDefault ⟨false, []⟩ [] 42 true .absent
      (some "user@x.com") =
      .ok ({ check_time := strfFull 42, status := "failed",
             token_usage := .obj .nil, rate_limits := .obj .nil,
             errors := ["未找到 Codex CLI session 文件"] }, []) :=
  get_usage_summary_no_log isoDefault ⟨false, []⟩ [] 42 true .absent
    (some "user@x.com") rfl

/-! ## C8: window labels in the rendered summary -/

/-- Rate-limit window fields with a variable `window_minutes`. -/
def c8win (up rs : ℚ) (wm : ℚ) : JsonFields :=
  .cons "used_percent" (.num up)
  (.cons "resets_in_seconds" (.num rs)
  (.cons "window_minutes" (.num wm) .nil))

/-- Two-window rate-limit mapping for the label theorem. -/
def c8limits (q1 q2 : ℚ) : Json :=
  .obj (.cons "primary" (.obj (c8win 42 3600 q1))
       (.cons "secondary" (.obj (c8win 81 60 q2)) .nil))

/-- Success summary carrying the two windows. -/
def c8sum (q1 q2 : ℚ) : Summary :=
  { check_time := "2025-10-12 08:00:00", status := "success",
    token_usage := .obj .nil, rate_limits := c8limits q1 q2, errors := [] }

/-- The rendered text when the first window is short-horizon and the
second long-horizon. -/
def c8expected : String :=
  String.intercalate "\n"
    ["Codex CLI 用量查询", "查询时间: 2025-10-12 08:00:00", "状态: success",
     dashes50,
     "\n⏰ 速率限制:",
     "  🔄 5小时窗口:", "    已使用: 42.0%", "    重置时间: 01:00:00",
     "  🔄 周限制:", "    已使用: 81.0%", "    重置时间: 00:01:00"]

/-- A window block whose `window_minutes` is at most 330 renders with
the short-horizon label. -/
theorem c8blockA (q1 : ℚ) (h : q1 ≤ 330) :
    limitBlock 0 (c8win 42 3600 q1) =
      .ok ["  🔄 5小时窗口:", "    已使用: 42.0%", "    重置时间: 01:00:00"] := by
  have hb : (decide (q1 ≤ (330:ℚ))) = true := decide_eq_true h
  show Except.ok
    ["  🔄 " ++ (if decide (q1 ≤ (330:ℚ)) = true then "5小时窗口" else "周限制") ++ ":",
     "    已使用: " ++ fixed1 42 ++ "%",
     "    重置时间: " ++ resetTimeStr 0 3600] = _
  rw [hb]
  decide

/-- A window block whose `window_minutes` exceeds 330 renders with the
long-horizon label, never the short one. -/
theorem c8blockB (q2 : ℚ) (h : 330 < q2) :
    limitBlock 0 (c8win 81 60 q2) =
      .ok ["  🔄 周限制:", "    已使用: 81.0%", "    重置时间: 00:01:00"] := by
  have hb : (decide (q2 ≤ (330:ℚ))) = false := decide_eq_false (not_le.mpr h)
  show Except.ok
    ["  🔄 " ++ (if decide (q2 ≤ (330:ℚ)) = true then "5小时窗口" else "周限制") ++ ":",
     "    已使用: " ++ fixed1 81 ++ "%",
     "    重置时间: " ++ resetTimeStr 0 60] = _
  rw [hb]
  decide

set_option maxRecDepth 8192 in
/-- C8: in the rendered summary every rate-limit window with
`window_minutes ≤ 330` is labeled with the short-horizon label
(`5小时窗口`) and every window with `window_minutes > 330` with the
long-horizon label (`周限制`), never the short one. -/
theorem format_usage_summary_window_labels (q1 q2 : ℚ)
    (h1 : q1 ≤ 330) (h2 : 330 < q2) :
    format_usage_summary 0 (c8sum q1 q2) = .ok c8expected := by
  have hA := c8blockA q1 h1
  have hB := c8blockB q2 h2
  unfold format_usage_summary c8sum c8limits
  simp only [pyTruthy, JsonFields.isEmpty, limitsLines, hA, hB, bindOk]
  decide

/-- Witness for C8: a 300-minute window is labeled short-horizon and the
weekly 10080-minute window long-horizon in the same rendering. -/
theorem format_usage_summary_window_labels_witness :
    format_usage_summary 0 (c8sum 300 10080) = .ok c8expected :=
  format_usage_summary_window_labels 300 10080 (by decide) (by decide)

/-! ## C9: the auth e-mail extractor is total -/

/-- Every run of the body ends in a value or in an `AttributeError`
(which the outer handler of `extract_email_from_auth` catches). -/
theorem extractEmailBody_cases (dec : String → Option Json) (a : Json) :
    (∃ v, extractEmailBody dec a = .ok v) ∨ extractEmailBody dec a = .error .attr := by
  unfold extractEmailBody
  cases a with
  | null => right; rfl
  | bool b => right; rfl
  | num q => right; rfl
  | str s => right; rfl
  | arr xs => right; rfl
  | obj fields =>
    rw [show pyGetD (.obj fields) "tokens" (.obj .nil)
        = .ok ((fields.lookup "tokens").getD (.obj .nil)) from rfl, bindOk]
    rcases htv : (fields.lookup "tokens").getD (.obj .nil) with _ | b | q | s | xs | tf
    · right; rfl
    · right; rfl
    · right; rfl
    · right; rfl
    · right; rfl
    · rw [show pyGetD (.obj tf) "id_token" (.str "")
          = .ok ((tf.lookup "id_token").getD (.str "")) from rfl, bindOk]
      by_cases ht : pyTruthy ((tf.lookup "id_token").getD (.str "")) = true
      · rw [if_pos ht]
        rcases hid : (tf.lookup "id_token").getD (.str "") with _ | b | q | s | xs | f2
        · right; rfl
        · right; rfl
        · right; rfl
        · rw [show pySplitDots (.str s) = .ok (pySplit s ".") from rfl, bindOk]
          by_cases hlen : (pySplit s ".").length ≥ 2
          · rw [if_pos hlen]
            rcases hdec : dec (padB64 (((pySplit s ".")[1]?).getD "")) with _ | tok
            · left; exact ⟨.null, by simp only [hdec]⟩
            · rcases tok with _ | b2 | q2 | s2 | xs2 | f3
              · right; simp [hdec, pyGet, pyGetD]
              · right; simp [hdec, pyGet, pyGetD]
              · right; simp [hdec, pyGet, pyGetD]
              · right; simp [hdec, pyGet, pyGetD]
              · right; simp [hdec, pyGet, pyGetD]
              · left
                exact ⟨(f3.lookup "email").getD .null, by
                  simp [hdec, pyGet, pyGetD]⟩
          · rw [if_neg hlen]
            left; exact ⟨.null, rfl⟩
        · right; rfl
        · right; rfl
      · rw [if_neg ht]
        left; exact ⟨.null, rfl⟩

/-- C9: `extract_email_from_auth` is total — on every auth structure it
returns a value, never an exception; on a structure holding a
dot-separated `tokens.id_token` whose padded middle segment decodes and
parses to an object, it returns that object's `email` member; a decode
or JSON failure of the middle segment, and a non-dict auth structure,
yield `None`. -/
theorem extract_email_from_auth_spec :
    (∀ (dec : String → Option Json) (a : Json),
      ∃ v, extract_email_from_auth dec a = .ok v) ∧
    (∀ (dec : String → Option Json) (idt : String) (parts : List String)
        (p : String) (tok v : Json),
      idt ≠ "" → pySplit idt "." = parts → parts.length ≥ 2 →
      parts[1]? = some p → dec (padB64 p) = some tok →
      pyGet tok "email" = .ok v →
      extract_email_from_auth dec
        (.obj (.cons "tokens" (.obj (.cons "id_token" (.str idt) .nil)) .nil)) =
        .ok v) ∧
    (∀ (dec : String → Option Json) (idt : String) (parts : List String)
        (p : String),
      idt ≠ "" → pySplit idt "." = parts → parts.length ≥ 2 →
      parts[1]? = some p → dec (padB64 p) = none →
      extract_email_from_auth dec
        (.obj (.cons "tokens" (.obj (.cons "id_token" (.str idt) .nil)) .nil)) =
        .ok .null) ∧
    (∀ (dec : String → Option Json) (q : ℚ),
      extract_email_from_auth dec (.num q) = .ok .null) := by
  refine ⟨?_, ?_, ?_, ?_⟩
  · intro dec a
    rcases extractEmailBody_cases dec a with ⟨v, hv⟩ | he
    · exact ⟨v, by unfold extract_email_from_auth; rw [hv]⟩
    · exact ⟨.null, by unfold extract_email_from_auth; rw [he]⟩
  · intro dec idt parts p tok v hne hsplit hlen hp hdec hem
    have hbody : extractEmailBody dec
        (.obj (.cons "tokens" (.obj (.cons "id_token" (.str idt) .nil)) .nil)) =
        .ok v := by
      unfold extractEmailBody
      rw [show pyGetD
          (.obj (.cons "tokens" (.obj (.cons "id_token" (.str idt) .nil)) .nil))
          "tokens" (.obj .nil)
          = .ok (.obj (.cons "id_token" (.str idt) .nil)) from by
        simp [pyGetD, JsonFields.lookup], bindOk]
      rw [show pyGetD (.obj (.cons "id_token" (.str idt) .nil)) "id_token" (.str "")
          = .ok (.str idt) from by simp [pyGetD, JsonFields.lookup], bindOk]
      have ht : pyTruthy (.str idt) = true := by simp [pyTruthy, hne]
      rw [if_pos ht]
      rw [show pySplitDots (.str idt) = .ok (pySplit idt ".") from rfl, bindOk,
        hsplit, if_pos hlen, hp]
      simp [hdec, hem]
    unfold extract_email_from_auth
    rw [hbody]
  · intro dec idt parts p hne hsplit hlen hp hdec
    have hbody : extractEmailBody dec
        (.obj (.cons "tokens" (.obj (.cons "id_token" (.str idt) .nil)) .nil)) =
        .ok .null := by
      unfold extractEmailBody
      rw [show pyGetD
          (.obj (.cons "tokens" (.obj (.cons "id_token" (.str idt) .nil)) .nil))
          "tokens" (.obj .nil)
          = .ok (.obj (.cons "id_token" (.str idt) .nil)) from by
        simp [pyGetD, JsonFields.lookup], bindOk]
      rw [show pyGetD (.obj (.cons "id_token" (.str idt) .nil)) "id_token" (.str "")
          = .ok (.str idt) from by simp [pyGetD, JsonFields.lookup], bindOk]
      have ht : pyTruthy (.str idt) = true := by simp [pyTruthy, hne]
      rw [if_pos ht]
      rw [show pySplitDots (.str idt) = .ok (pySplit idt ".") from rfl, bindOk,
        hsplit, if_pos hlen, hp]
      simp [hdec]
    unfold extract_email_from_auth
    rw [hbody]
  · intro dec q
    rfl

/-- Decoder used by the C9 witness: succeeds exactly on the padded
middle segment of `h.p.sig`, yielding `{"email": "user@x.com"}`. -/
def c9dec : String → Option Json := fun s =>
  if s = padB64 "p" then some (.obj (.cons "email" (.str "user@x.com") .nil))
  else none

/-- Witness for C9: a well-formed JWT-shaped token yields its e-mail,
while a numeric auth structure yields `None` without an exception. -/
theorem extract_email_from_auth_spec_witness :
    extract_email_from_auth c9dec
      (.obj (.cons "tokens" (.obj (.cons "id_token" (.str "h.p.sig") .nil)) .nil)) =
      .ok (.str "user@x.com") ∧
    extract_email_from_auth c9dec (.num 5) = .ok .null := by
  constructor
  · exact extract_email_from_auth_spec.2.1 c9dec "h.p.sig" ["h", "p", "sig"] "p"
      (.obj (.cons "email" (.str "user@x.com") .nil)) (.str "user@x.com")
      (by decide) (by decide) (by decide) (by decide) (by decide) (by decide)
  · exact extract_email_from_auth_spec.2.2.2 c9dec 5
